import Mathlib

/-!
Verification of the message-state lifecycle of the ai-text-processor app.

The repository contains two variants of the single React component:
`src/src/App.jsx` (embedded below in namespace `AppJsx`) and
`src/unnamed/part_000` (embedded in namespace `Part000`).  Each variant is a
state store (ordered message list, draft input, selected target language,
error slot) whose handlers call three opaque host capabilities (language
detection, summarization, translation).

The capabilities are external: each call's outcome is modelled by an
environment value (capability absent, call raised, or call returned a
value).  The handlers are translated line by line from the JS source;
JavaScript `null`/`undefined` results become `Option.none`, and the JS
truthiness test `if (x)` on a string-or-null value becomes a `none`
check plus an emptiness check.
-/

/-- One entry of the list returned by `detector.detect(text)`:
`{detectedLanguage, confidence}`.  Confidence is never read by the app,
so its numeric type is irrelevant; we use `Nat`. -/
structure DetectionResult where
  detectedLanguage : String
  confidence : Nat

deriving instance DecidableEq for DetectionResult

/-- Outcome of one language-detection attempt: the capability is absent
(`!("ai" in self) || !("languageDetector" in self.ai)`), the awaited call
raised, or it returned an ordered result list. -/
inductive DetectEnv where
  | unavailable
  | failure
  | results (rs : List DetectionResult)

deriving instance DecidableEq for DetectEnv

/-- Outcome of one summarization attempt. -/
inductive SummarizeEnv where
  | unavailable
  | failure
  | success (result : String)

deriving instance DecidableEq for SummarizeEnv

/-- Outcome of one translation attempt. -/
inductive TranslateEnv where
  | unavailable
  | failure
  | success (result : String)

deriving instance DecidableEq for TranslateEnv

/-- Model of JavaScript `String.prototype.trim`: strips leading and
trailing whitespace.  (Defined over the character list so that it is
kernel-computable.) -/
def jsTrim (s : String) : String :=
  String.mk (((s.data.dropWhile Char.isWhitespace).reverse.dropWhile Char.isWhitespace).reverse)

namespace AppJsx

/-- The message record created by `handleSubmit` in `src/src/App.jsx`:
`{ text: inputText, detectedLanguage, summary: "", translation: "" }`.
`detectedLanguage` is the raw return of `detectLanguage`, which can be
`null` (modelled as `none`). -/
structure Message where
  text : String
  detectedLanguage : Option String
  summary : String
  translation : String

deriving instance DecidableEq for Message

/-- The four `useState` slots of `src/src/App.jsx`. -/
structure AppState where
  messages : List Message
  inputText : String
  selectedLanguage : String
  error : String

deriving instance DecidableEq for AppState

/-- `detectLanguage` of `src/src/App.jsx` (lines 9-22): returns `null` when
the capability is absent or the call raises, otherwise
`results.length > 0 ? results[0].detectedLanguage : null`. -/
def detectLanguage (env : DetectEnv) (_text : String) : Option String :=
  match env with
  | .unavailable => none
  | .failure => none
  | .results rs =>
    match rs with
    | [] => none
    | r :: _ => some r.detectedLanguage

/-- `summarizeText` of `src/src/App.jsx` (lines 24-41).  Absence returns
`null`; a raise returns the string `"Error in summarization"`; a returned
string `result` yields `result ? result.summary || result : "Summarization
failed"` - for a string, `result.summary` is `undefined`, so a non-empty
result is passed through and an empty one becomes `"Summarization failed"`. -/
def summarizeText (env : SummarizeEnv) (_text : String) : Option String :=
  match env with
  | .unavailable => none
  | .failure => some "Error in summarization"
  | .success result => some (if result = "" then "Summarization failed" else result)

/-- `translateText` of `src/src/App.jsx` (lines 43-58): absence returns
`undefined` (bare `return;`), a raise returns `null`, success returns the
translated string. -/
def translateText (env : TranslateEnv) (_text : String)
    (_sourceLang : Option String) (_targetLang : String) : Option String :=
  match env with
  | .unavailable => none
  | .failure => none
  | .success result => some result

/-- `handleSubmit` of `src/src/App.jsx` (lines 60-71): blank (trimmed-empty)
input sets the error slot and returns; otherwise the error slot is cleared,
the detection capability is consulted, a new message is appended and the
draft is cleared. -/
def handleSubmit (env : DetectEnv) (st : AppState) : AppState :=
  if jsTrim st.inputText = "" then
    { st with error := "Please enter text before submitting." }
  else
    let detectedLanguage := detectLanguage env st.inputText
    { st with
        error := ""
        messages := st.messages ++
          [{ text := st.inputText, detectedLanguage := detectedLanguage,
             summary := "", translation := "" }]
        inputText := "" }

/-- `handleSummarize` of `src/src/App.jsx` (lines 73-84).  An out-of-range
index makes `messages[index]` `undefined` and the access `message.text`
throw, so no state update happens; empty text returns early; a falsy
summary (null or empty) is not stored; otherwise the message at `index` is
shallow-copied with the new `summary`. -/
def handleSummarize (env : SummarizeEnv) (index : Nat) (st : AppState) : AppState :=
  match st.messages[index]? with
  | none => st
  | some message =>
    if message.text = "" then st
    else
      match summarizeText env message.text with
      | none => st
      | some summary =>
        if summary = "" then st
        else { st with messages := st.messages.set index { message with summary := summary } }

/-- `handleTranslate` of `src/src/App.jsx` (lines 86-94).  An out-of-range
index throws at `message.text` before any update; a falsy translation is
not stored; otherwise `updatedMessages[index].translation = translation`
overwrites the field of the message at `index`. -/
def handleTranslate (env : TranslateEnv) (index : Nat) (st : AppState) : AppState :=
  match st.messages[index]? with
  | none => st
  | some message =>
    match translateText env message.text message.detectedLanguage st.selectedLanguage with
    | none => st
    | some translation =>
      if translation = "" then st
      else { st with messages := st.messages.set index { message with translation := translation } }

/-- Render guard for the Summarize button (line 106):
`msg.text.length > 150 && msg.detectedLanguage === "en"`. -/
def showSummarizeButton (msg : Message) : Bool :=
  decide (msg.text.length > 150) && (msg.detectedLanguage == some "en")

/-- The UI events that change state: editing the draft, picking a target
language, and the three handlers (each carrying its capability outcome). -/
inductive Op where
  | setInput (s : String)
  | selectLanguage (lang : String)
  | submit (env : DetectEnv)
  | summarize (env : SummarizeEnv) (index : Nat)
  | translate (env : TranslateEnv) (index : Nat)

/-- One UI event applied to the state. -/
def step (op : Op) (st : AppState) : AppState :=
  match op with
  | .setInput s => { st with inputText := s }
  | .selectLanguage lang => { st with selectedLanguage := lang }
  | .submit env => handleSubmit env st
  | .summarize env index => handleSummarize env index st
  | .translate env index => handleTranslate env index st

/-- A sequence of UI events applied in order. -/
def run (ops : List Op) (st : AppState) : AppState :=
  match ops with
  | [] => st
  | op :: rest => run rest (step op st)

/-- The texts of the submissions accepted (non-blank at submit time) by a
sequence of events, given the current draft text.  Used to state the
submission-order invariant. -/
def submittedTexts (ops : List Op) (current : String) : List String :=
  match ops with
  | [] => []
  | Op.setInput s :: rest => submittedTexts rest s
  | Op.submit _ :: rest =>
    if jsTrim current = "" then submittedTexts rest current
    else current :: submittedTexts rest ""
  | Op.selectLanguage _ :: rest => submittedTexts rest current
  | Op.summarize _ _ :: rest => submittedTexts rest current
  | Op.translate _ _ :: rest => submittedTexts rest current

end AppJsx

namespace Part000

/-- The message record created by `handleSubmit` in `src/unnamed/part_000`:
`{ text: userInput, language: detectedLanguage || "Unknown", summary: null,
translation: null }`. -/
structure Message where
  text : String
  language : String
  summary : Option String
  translation : Option String

deriving instance DecidableEq for Message

/-- The four `useState` slots of `src/unnamed/part_000`. -/
structure AppState where
  messages : List Message
  userInput : String
  selectedTargetLanguage : String
  error : String

deriving instance DecidableEq for AppState

/-- Applies a `setError` performed (or not) during a capability call. -/
def applyError (st : AppState) (errUpdate : Option String) : AppState :=
  match errUpdate with
  | none => st
  | some e => { st with error := e }

/-- `detectLanguage` of `src/unnamed/part_000` (lines 10-28).  Returns the
detection result together with the `setError` write the call performs:
absence and raise each set a message and return `null`; otherwise the
result is `results[0]?.detectedLanguage || null` with no error write. -/
def detectLanguage (env : DetectEnv) (_text : String) :
    Option String × Option String :=
  match env with
  | .unavailable => (none, some "Feature unavailable: Language detection.")
  | .failure => (none, some "Could not detect the language. Please try again.")
  | .results rs =>
    match rs with
    | [] => (none, none)
    | r :: _ =>
      (if r.detectedLanguage = "" then none else some r.detectedLanguage, none)

/-- `summarizeText` of `src/unnamed/part_000` (lines 30-52): absence and
raise set an error and return `null`; a returned string `summary` yields
`summary?.summary || summary || "Failed to generate summary."` - for a
string, `summary?.summary` is `undefined`, so a non-empty result is passed
through and an empty one becomes the fallback string. -/
def summarizeText (env : SummarizeEnv) (_text : String) :
    Option String × Option String :=
  match env with
  | .unavailable => (none, some "Feature unavailable: Text summarization.")
  | .failure =>
    (none, some "Summarization failed. Please check your input and try again.")
  | .success result =>
    (some (if result = "" then "Failed to generate summary." else result), none)

/-- `translateText` of `src/unnamed/part_000` (lines 54-74): absence and
raise set an error and return `null`; success returns the translated
string with no error write. -/
def translateText (env : TranslateEnv) (_text : String)
    (_sourceLang : String) (_targetLang : String) :
    Option String × Option String :=
  match env with
  | .unavailable => (none, some "Feature unavailable: Text translation.")
  | .failure =>
    (none, some "Translation failed. Check if the language pair is supported.")
  | .success result => (some result, none)

/-- `handleSubmit` of `src/unnamed/part_000` (lines 76-94): blank input
sets the error slot and returns; otherwise the error slot is cleared,
detection runs (possibly rewriting the slot), and a message with
`language = detectedLanguage || "Unknown"` is appended. -/
def handleSubmit (env : DetectEnv) (st : AppState) : AppState :=
  if jsTrim st.userInput = "" then
    { st with error := "Input field is empty. Please enter some text." }
  else
    let cleared : AppState := { st with error := "" }
    let r := detectLanguage env cleared.userInput
    let afterDetect := applyError cleared r.2
    let language :=
      match r.1 with
      | some s => if s = "" then "Unknown" else s
      | none => "Unknown"
    { afterDetect with
        messages := afterDetect.messages ++
          [{ text := st.userInput, language := language,
             summary := none, translation := none }]
        userInput := "" }

/-- `handleSummarize` of `src/unnamed/part_000` (lines 96-108).  Same shape
as the `App.jsx` handler; the error write performed inside `summarizeText`
is applied before the truthiness check on the result. -/
def handleSummarize (env : SummarizeEnv) (index : Nat) (st : AppState) : AppState :=
  match st.messages[index]? with
  | none => st
  | some message =>
    if message.text = "" then st
    else
      let r := summarizeText env message.text
      let st1 := applyError st r.2
      match r.1 with
      | none => st1
      | some summary =>
        if summary = "" then st1
        else { st1 with
                 messages := st1.messages.set index { message with summary := some summary } }

/-- `handleTranslate` of `src/unnamed/part_000` (lines 110-126).  Unlike
the `App.jsx` variant it also returns early on empty text. -/
def handleTranslate (env : TranslateEnv) (index : Nat) (st : AppState) : AppState :=
  match st.messages[index]? with
  | none => st
  | some message =>
    if message.text = "" then st
    else
      let r := translateText env message.text message.language st.selectedTargetLanguage
      let st1 := applyError st r.2
      match r.1 with
      | none => st1
      | some translation =>
        if translation = "" then st1
        else { st1 with
                 messages := st1.messages.set index { message with translation := some translation } }

/-- Render guard for the Summarize button (line 138):
`message.text.length > 150 && message.language === "en"`. -/
def showSummarizeButton (message : Message) : Bool :=
  decide (message.text.length > 150) && (message.language == "en")

/-- The UI events of the `part_000` variant: editing the draft, picking a
target language, and the three handlers (each carrying its capability
outcome). -/
inductive Op where
  | setInput (s : String)
  | selectLanguage (lang : String)
  | submit (env : DetectEnv)
  | summarize (env : SummarizeEnv) (index : Nat)
  | translate (env : TranslateEnv) (index : Nat)

/-- One UI event applied to the `part_000` state. -/
def step (op : Op) (st : AppState) : AppState :=
  match op with
  | .setInput s => { st with userInput := s }
  | .selectLanguage lang => { st with selectedTargetLanguage := lang }
  | .submit env => handleSubmit env st
  | .summarize env index => handleSummarize env index st
  | .translate env index => handleTranslate env index st

/-- A sequence of `part_000` UI events applied in order. -/
def run (ops : List Op) (st : AppState) : AppState :=
  match ops with
  | [] => st
  | op :: rest => run rest (step op st)

/-- The texts of the submissions accepted (non-blank at submit time) by a
`part_000` event sequence, given the current draft text. -/
def submittedTexts (ops : List Op) (current : String) : List String :=
  match ops with
  | [] => []
  | Op.setInput s :: rest => submittedTexts rest s
  | Op.submit _ :: rest =>
    if jsTrim current = "" then submittedTexts rest current
    else current :: submittedTexts rest ""
  | Op.selectLanguage _ :: rest => submittedTexts rest current
  | Op.summarize _ _ :: rest => submittedTexts rest current
  | Op.translate _ _ :: rest => submittedTexts rest current

end Part000

/-- A sample message for the `App.jsx` variant, used by the concrete
instantiations below. -/
def sampleMsgA : AppJsx.Message :=
  { text := "abc", detectedLanguage := some "en", summary := "", translation := "" }

/-- A one-message sample state for the `App.jsx` variant. -/
def sampleStA : AppJsx.AppState :=
  { messages := [sampleMsgA], inputText := "", selectedLanguage := "en", error := "" }

/-- A sample message for the `part_000` variant. -/
def sampleMsgP : Part000.Message :=
  { text := "abc", language := "en", summary := none, translation := none }

/-- A one-message sample state for the `part_000` variant. -/
def sampleStP : Part000.AppState :=
  { messages := [sampleMsgP], userInput := "", selectedTargetLanguage := "en", error := "" }

/-- An `App.jsx` state with the draft "Hello" ready to submit. -/
def sampleSubmitA : AppJsx.AppState :=
  { messages := [], inputText := "Hello", selectedLanguage := "en", error := "" }

/-- A `part_000` state with the draft "Hello" ready to submit. -/
def sampleSubmitP : Part000.AppState :=
  { messages := [], userInput := "Hello", selectedTargetLanguage := "en", error := "" }

/-- An `App.jsx` state whose draft is whitespace only. -/
def sampleBlankA : AppJsx.AppState :=
  { messages := [sampleMsgA], inputText := "   ", selectedLanguage := "en", error := "" }

/-- A `part_000` state whose draft is whitespace only. -/
def sampleBlankP : Part000.AppState :=
  { messages := [sampleMsgP], userInput := " ", selectedTargetLanguage := "en", error := "" }

/-- Setting an index that already holds an element with the same image
under `f` leaves the mapped list unchanged. -/
theorem list_map_set_same {α β : Type} (f : α → β) (l : List α) (i : Nat)
    (a b : α) (h : l[i]? = some b) (hf : f a = f b) :
    (l.set i a).map f = l.map f := by
  induction l generalizing i with
  | nil => simp
  | cons x xs ih =>
    cases i with
    | zero =>
      simp only [List.getElem?_cons_zero, Option.some.injEq] at h
      simp [List.set, h ▸ hf]
    | succ n =>
      simp only [List.getElem?_cons_succ] at h
      simp [List.set, ih n h]

/-- `applyError` never changes the message list. -/
theorem applyError_messages (st : Part000.AppState) (e : Option String) :
    (Part000.applyError st e).messages = st.messages := by
  cases e <;> rfl

/-- An unavailable summarizer leaves the `App.jsx` state unchanged. -/
theorem handleSummarize_unavailable_eq (index : Nat) (st : AppJsx.AppState) :
    AppJsx.handleSummarize SummarizeEnv.unavailable index st = st := by
  unfold AppJsx.handleSummarize
  cases hm : st.messages[index]? with
  | none => rfl
  | some msg => simp [AppJsx.summarizeText]

/-- An unavailable translator leaves the `App.jsx` state unchanged. -/
theorem handleTranslate_unavailable_eq (index : Nat) (st : AppJsx.AppState) :
    AppJsx.handleTranslate TranslateEnv.unavailable index st = st := by
  unfold AppJsx.handleTranslate
  cases hm : st.messages[index]? with
  | none => rfl
  | some msg => simp [AppJsx.translateText]

/-- A raising translator call leaves the `App.jsx` state unchanged. -/
theorem handleTranslate_failure_eq (index : Nat) (st : AppJsx.AppState) :
    AppJsx.handleTranslate TranslateEnv.failure index st = st := by
  unfold AppJsx.handleTranslate
  cases hm : st.messages[index]? with
  | none => rfl
  | some msg => simp [AppJsx.translateText]

/-- A translation call that returns the empty string stores nothing
(`App.jsx` variant). -/
theorem handleTranslate_empty_eq (index : Nat) (st : AppJsx.AppState) :
    AppJsx.handleTranslate (TranslateEnv.success "") index st = st := by
  unfold AppJsx.handleTranslate
  cases hm : st.messages[index]? with
  | none => rfl
  | some msg => simp [AppJsx.translateText]

/-- A translation call that returns the empty string stores nothing and
writes no error (`part_000` variant). -/
theorem part000_handleTranslate_empty_eq (index : Nat) (st : Part000.AppState) :
    Part000.handleTranslate (TranslateEnv.success "") index st = st := by
  unfold Part000.handleTranslate
  cases hm : st.messages[index]? with
  | none => rfl
  | some msg => simp [Part000.translateText, Part000.applyError]

/-- `handleSummarize` never changes any message's text and never touches
the draft input (`App.jsx` variant). -/
theorem summarize_textMap (env : SummarizeEnv) (index : Nat) (st : AppJsx.AppState) :
    (AppJsx.handleSummarize env index st).messages.map AppJsx.Message.text
      = st.messages.map AppJsx.Message.text ∧
    (AppJsx.handleSummarize env index st).inputText = st.inputText := by
  unfold AppJsx.handleSummarize
  cases hm : st.messages[index]? with
  | none => exact ⟨rfl, rfl⟩
  | some msg =>
    dsimp only
    split
    · exact ⟨rfl, rfl⟩
    · cases hs : AppJsx.summarizeText env msg.text with
      | none => exact ⟨rfl, rfl⟩
      | some s =>
        dsimp only
        split
        · exact ⟨rfl, rfl⟩
        · exact ⟨list_map_set_same _ _ _ _ _ hm rfl, rfl⟩

/-- `handleTranslate` never changes any message's text and never touches
the draft input (`App.jsx` variant). -/
theorem translate_textMap (env : TranslateEnv) (index : Nat) (st : AppJsx.AppState) :
    (AppJsx.handleTranslate env index st).messages.map AppJsx.Message.text
      = st.messages.map AppJsx.Message.text ∧
    (AppJsx.handleTranslate env index st).inputText = st.inputText := by
  unfold AppJsx.handleTranslate
  cases hm : st.messages[index]? with
  | none => exact ⟨rfl, rfl⟩
  | some msg =>
    dsimp only
    cases ht : AppJsx.translateText env msg.text msg.detectedLanguage st.selectedLanguage with
    | none => exact ⟨rfl, rfl⟩
    | some t =>
      dsimp only
      split
      · exact ⟨rfl, rfl⟩
      · exact ⟨list_map_set_same _ _ _ _ _ hm rfl, rfl⟩

/-- `applyError` never changes the draft input. -/
theorem applyError_userInput (st : Part000.AppState) (e : Option String) :
    (Part000.applyError st e).userInput = st.userInput := by
  cases e <;> rfl

/-- `part_000`'s `handleSummarize` never changes any message's text and
never touches the draft input. -/
theorem part000_summarize_textMap (env : SummarizeEnv) (index : Nat)
    (st : Part000.AppState) :
    (Part000.handleSummarize env index st).messages.map Part000.Message.text =
      st.messages.map Part000.Message.text ∧
    (Part000.handleSummarize env index st).userInput = st.userInput := by
  unfold Part000.handleSummarize
  cases hm : st.messages[index]? with
  | none => exact ⟨rfl, rfl⟩
  | some msg =>
    dsimp only
    split
    · exact ⟨rfl, rfl⟩
    · cases hr : (Part000.summarizeText env msg.text).1 with
      | none =>
        constructor
        · rw [applyError_messages]
        · rw [applyError_userInput]
      | some summary =>
        dsimp only
        split
        · constructor
          · rw [applyError_messages]
          · rw [applyError_userInput]
        · constructor
          · rw [applyError_messages]
            exact list_map_set_same _ _ _ _ _ hm rfl
          · rw [applyError_userInput]

/-- `part_000`'s `handleTranslate` never changes any message's text and
never touches the draft input. -/
theorem part000_translate_textMap (env : TranslateEnv) (index : Nat)
    (st : Part000.AppState) :
    (Part000.handleTranslate env index st).messages.map Part000.Message.text =
      st.messages.map Part000.Message.text ∧
    (Part000.handleTranslate env index st).userInput = st.userInput := by
  unfold Part000.handleTranslate
  cases hm : st.messages[index]? with
  | none => exact ⟨rfl, rfl⟩
  | some msg =>
    dsimp only
    split
    · exact ⟨rfl, rfl⟩
    · cases hr : (Part000.translateText env msg.text msg.language
          st.selectedTargetLanguage).1 with
      | none =>
        constructor
        · rw [applyError_messages]
        · rw [applyError_userInput]
      | some translation =>
        dsimp only
        split
        · constructor
          · rw [applyError_messages]
          · rw [applyError_userInput]
        · constructor
          · rw [applyError_messages]
            exact list_map_set_same _ _ _ _ _ hm rfl
          · rw [applyError_userInput]

/-- Submission-order invariant for the `App.jsx` variant: after any event
sequence the message texts are the prior texts followed by the accepted
submissions in order. -/
theorem appjsx_run_textMap (ops : List AppJsx.Op) (st : AppJsx.AppState) :
    (AppJsx.run ops st).messages.map AppJsx.Message.text =
      st.messages.map AppJsx.Message.text ++ AppJsx.submittedTexts ops st.inputText := by
  induction ops generalizing st with
  | nil => simp [AppJsx.run, AppJsx.submittedTexts]
  | cons op rest ih =>
    cases op with
    | setInput s =>
      simpa [AppJsx.run, AppJsx.step, AppJsx.submittedTexts] using
        ih { st with inputText := s }
    | selectLanguage lang =>
      simpa [AppJsx.run, AppJsx.step, AppJsx.submittedTexts] using
        ih { st with selectedLanguage := lang }
    | submit env =>
      by_cases hb : jsTrim st.inputText = ""
      · simp [AppJsx.run, AppJsx.step, AppJsx.handleSubmit, hb, AppJsx.submittedTexts, ih]
      · simp [AppJsx.run, AppJsx.step, AppJsx.handleSubmit, hb, AppJsx.submittedTexts, ih]
    | summarize env index =>
      have hpres := summarize_textMap env index st
      simp [AppJsx.run, AppJsx.step, AppJsx.submittedTexts, ih, hpres.1, hpres.2]
    | translate env index =>
      have hpres := translate_textMap env index st
      simp [AppJsx.run, AppJsx.step, AppJsx.submittedTexts, ih, hpres.1, hpres.2]

/-- Submission-order invariant for the `part_000` variant: after any event
sequence the message texts are the prior texts followed by the accepted
submissions in order. -/
theorem part000_run_textMap (ops : List Part000.Op) (st : Part000.AppState) :
    (Part000.run ops st).messages.map Part000.Message.text =
      st.messages.map Part000.Message.text ++ Part000.submittedTexts ops st.userInput := by
  induction ops generalizing st with
  | nil => simp [Part000.run, Part000.submittedTexts]
  | cons op rest ih =>
    cases op with
    | setInput s =>
      simpa [Part000.run, Part000.step, Part000.submittedTexts] using
        ih { st with userInput := s }
    | selectLanguage lang =>
      simpa [Part000.run, Part000.step, Part000.submittedTexts] using
        ih { st with selectedTargetLanguage := lang }
    | submit env =>
      by_cases hb : jsTrim st.userInput = ""
      · simp [Part000.run, Part000.step, Part000.handleSubmit, hb,
          Part000.submittedTexts, ih]
      · simp [Part000.run, Part000.step, Part000.handleSubmit, hb,
          Part000.submittedTexts, ih, applyError_messages, applyError_userInput]
    | summarize env index =>
      have hpres := part000_summarize_textMap env index st
      simp [Part000.run, Part000.step, Part000.submittedTexts, ih, hpres.1, hpres.2]
    | translate env index =>
      have hpres := part000_translate_textMap env index st
      simp [Part000.run, Part000.step, Part000.submittedTexts, ih, hpres.1, hpres.2]

/-- Claim C1, counterexample: submitting "Hello" with detection
unavailable yields a message whose detected-language field is the null
sentinel `none` in the `App.jsx` variant and the string "Unknown" in the
`part_000` variant - in neither variant is it the string "unknown" the
claim names. -/
theorem C1_counterexample :
    (AppJsx.handleSubmit DetectEnv.unavailable sampleSubmitA).messages.map
        AppJsx.Message.detectedLanguage = [none] ∧
    (none : Option String) ≠ some "unknown" ∧
    (Part000.handleSubmit DetectEnv.unavailable sampleSubmitP).messages.map
        Part000.Message.language = ["Unknown"] ∧
    ("Unknown" : String) ≠ "unknown" := by decide

/-- Claim C1, amended: for every submission with non-blank input where
detection is unavailable, the call fails, or it returns an empty (or
falsy-language) result, `App.jsx` appends a message whose
`detectedLanguage` is the null sentinel `none`, and `part_000` appends a
message whose `language` is the sentinel string "Unknown". -/
theorem C1_unknown_sentinel (envA envP : DetectEnv)
    (st : AppJsx.AppState) (stP : Part000.AppState)
    (h : jsTrim st.inputText ≠ "")
    (hP : jsTrim stP.userInput ≠ "")
    (hA : AppJsx.detectLanguage envA st.inputText = none)
    (hPd : (Part000.detectLanguage envP stP.userInput).1 = none) :
    (AppJsx.handleSubmit envA st).messages =
      st.messages ++ [{ text := st.inputText, detectedLanguage := none,
                        summary := "", translation := "" }] ∧
    (Part000.handleSubmit envP stP).messages =
      stP.messages ++ [{ text := stP.userInput, language := "Unknown",
                         summary := none, translation := none }] := by
  constructor
  · simp [AppJsx.handleSubmit, h, hA]
  · simp [Part000.handleSubmit, hP, hPd, applyError_messages]

/-- Claim C1, witness: the amended statement instantiated at the sample
submission states with a failing detection on one side and an
empty-result detection on the other. -/
theorem C1_witness :
    jsTrim sampleSubmitA.inputText ≠ "" ∧
    jsTrim sampleSubmitP.userInput ≠ "" ∧
    AppJsx.detectLanguage DetectEnv.failure sampleSubmitA.inputText = none ∧
    (Part000.detectLanguage (DetectEnv.results []) sampleSubmitP.userInput).1 = none ∧
    ((AppJsx.handleSubmit DetectEnv.failure sampleSubmitA).messages =
      sampleSubmitA.messages ++
        [{ text := sampleSubmitA.inputText, detectedLanguage := none,
           summary := "", translation := "" }] ∧
     (Part000.handleSubmit (DetectEnv.results []) sampleSubmitP).messages =
      sampleSubmitP.messages ++
        [{ text := sampleSubmitP.userInput, language := "Unknown",
           summary := none, translation := none }]) :=
  ⟨by decide, by decide, by decide, by decide,
   C1_unknown_sentinel DetectEnv.failure (DetectEnv.results []) sampleSubmitA sampleSubmitP
     (by decide) (by decide) (by decide) (by decide)⟩

/-- Claim C2, counterexample: in the `App.jsx` variant a raising
summarization call does not leave `summary` unset - it stores the
placeholder "Error in summarization" into the message - and it writes no
error to the error slot. -/
theorem C2_counterexample :
    (AppJsx.handleSummarize SummarizeEnv.failure 0 sampleStA).messages.map
        AppJsx.Message.summary = ["Error in summarization"] ∧
    sampleStA.messages.map AppJsx.Message.summary = [""] ∧
    ("Error in summarization" : String) ≠ "" ∧
    (AppJsx.handleSummarize SummarizeEnv.failure 0 sampleStA).error = "" := by decide

/-- Claim C2, amended: in the `part_000` variant, when the summarization
capability is absent or raises, the message list (hence every `summary`)
is unchanged and a single error message is written to the error slot.  In
the `App.jsx` variant, capability absence leaves the state entirely
unchanged (so no error reaches the slot), and a raising call stores the
placeholder string "Error in summarization" into the message's `summary`
while leaving the error slot unchanged.  Neither variant retries: the
capability outcome is consulted exactly once per call. -/
theorem C2_summarize_failure_behavior
    (st : AppJsx.AppState) (stP : Part000.AppState) (index : Nat)
    (msg : AppJsx.Message) (msgP : Part000.Message)
    (hA : st.messages[index]? = some msg) (hAt : msg.text ≠ "")
    (hP : stP.messages[index]? = some msgP) (hPt : msgP.text ≠ "") :
    AppJsx.handleSummarize SummarizeEnv.unavailable index st = st ∧
    (AppJsx.handleSummarize SummarizeEnv.failure index st).messages =
      st.messages.set index { msg with summary := "Error in summarization" } ∧
    (AppJsx.handleSummarize SummarizeEnv.failure index st).error = st.error ∧
    (Part000.handleSummarize SummarizeEnv.unavailable index stP).messages = stP.messages ∧
    (Part000.handleSummarize SummarizeEnv.unavailable index stP).error =
      "Feature unavailable: Text summarization." ∧
    (Part000.handleSummarize SummarizeEnv.failure index stP).messages = stP.messages ∧
    (Part000.handleSummarize SummarizeEnv.failure index stP).error =
      "Summarization failed. Please check your input and try again." := by
  refine ⟨handleSummarize_unavailable_eq index st, ?_, ?_, ?_, ?_, ?_, ?_⟩ <;>
    simp [AppJsx.handleSummarize, Part000.handleSummarize, AppJsx.summarizeText,
      Part000.summarizeText, Part000.applyError, hA, hAt, hP, hPt]

/-- Claim C2, witness: the amended statement instantiated at the sample
one-message states. -/
theorem C2_witness :
    sampleStA.messages[0]? = some sampleMsgA ∧ sampleMsgA.text ≠ "" ∧
    sampleStP.messages[0]? = some sampleMsgP ∧ sampleMsgP.text ≠ "" ∧
    (AppJsx.handleSummarize SummarizeEnv.unavailable 0 sampleStA = sampleStA ∧
     (AppJsx.handleSummarize SummarizeEnv.failure 0 sampleStA).messages =
       sampleStA.messages.set 0 { sampleMsgA with summary := "Error in summarization" } ∧
     (AppJsx.handleSummarize SummarizeEnv.failure 0 sampleStA).error = sampleStA.error ∧
     (Part000.handleSummarize SummarizeEnv.unavailable 0 sampleStP).messages = sampleStP.messages ∧
     (Part000.handleSummarize SummarizeEnv.unavailable 0 sampleStP).error =
       "Feature unavailable: Text summarization." ∧
     (Part000.handleSummarize SummarizeEnv.failure 0 sampleStP).messages = sampleStP.messages ∧
     (Part000.handleSummarize SummarizeEnv.failure 0 sampleStP).error =
       "Summarization failed. Please check your input and try again.") :=
  ⟨by decide, by decide, by decide, by decide,
   C2_summarize_failure_behavior sampleStA sampleStP 0 sampleMsgA sampleMsgP
     (by decide) (by decide) (by decide) (by decide)⟩

/-- Claim C3: submitting a draft that is empty after trimming leaves the
message list unchanged, appends nothing, and sets the error slot - in
both variants the resulting state is the old state with only the error
slot rewritten. -/
theorem C3_blank_submit (envA envP : DetectEnv)
    (st : AppJsx.AppState) (stP : Part000.AppState)
    (h : jsTrim st.inputText = "") (hP : jsTrim stP.userInput = "") :
    AppJsx.handleSubmit envA st =
      { st with error := "Please enter text before submitting." } ∧
    Part000.handleSubmit envP stP =
      { stP with error := "Input field is empty. Please enter some text." } := by
  constructor
  · simp [AppJsx.handleSubmit, h]
  · simp [Part000.handleSubmit, hP]

/-- Claim C3, witness: the statement instantiated at the whitespace-only
sample states. -/
theorem C3_witness :
    jsTrim sampleBlankA.inputText = "" ∧
    jsTrim sampleBlankP.userInput = "" ∧
    (AppJsx.handleSubmit DetectEnv.unavailable sampleBlankA =
      { sampleBlankA with error := "Please enter text before submitting." } ∧
     Part000.handleSubmit DetectEnv.unavailable sampleBlankP =
      { sampleBlankP with error := "Input field is empty. Please enter some text." }) :=
  ⟨by decide, by decide,
   C3_blank_submit DetectEnv.unavailable DetectEnv.unavailable sampleBlankA sampleBlankP
     (by decide) (by decide)⟩

/-- Claim C4: a successful summarize(i) stores the result string into
`messages[i].summary` and leaves that message's text, detected language
and translation, and every other message, unchanged - in both variants
(in `part_000` the stored value is `some` of the result, as the field is
nullable there). -/
theorem C4_summarize_frame (st : AppJsx.AppState) (stP : Part000.AppState)
    (index : Nat) (msg : AppJsx.Message) (msgP : Part000.Message) (s : String)
    (h : st.messages[index]? = some msg) (ht : msg.text ≠ "")
    (hP : stP.messages[index]? = some msgP) (hPt : msgP.text ≠ "")
    (hs : s ≠ "") :
    (AppJsx.handleSummarize (SummarizeEnv.success s) index st).messages[index]? =
      some { text := msg.text, detectedLanguage := msg.detectedLanguage,
             summary := s, translation := msg.translation } ∧
    (∀ j, j ≠ index →
      (AppJsx.handleSummarize (SummarizeEnv.success s) index st).messages[j]? =
        st.messages[j]?) ∧
    (AppJsx.handleSummarize (SummarizeEnv.success s) index st).error = st.error ∧
    (Part000.handleSummarize (SummarizeEnv.success s) index stP).messages[index]? =
      some { text := msgP.text, language := msgP.language,
             summary := some s, translation := msgP.translation } ∧
    (∀ j, j ≠ index →
      (Part000.handleSummarize (SummarizeEnv.success s) index stP).messages[j]? =
        stP.messages[j]?) := by
  have hlt : index < st.messages.length := (List.getElem?_eq_some.mp h).1
  have hltP : index < stP.messages.length := (List.getElem?_eq_some.mp hP).1
  have hmsgs : (AppJsx.handleSummarize (SummarizeEnv.success s) index st).messages =
      st.messages.set index { msg with summary := s } := by
    simp [AppJsx.handleSummarize, AppJsx.summarizeText, h, ht, hs]
  have hmsgsP : (Part000.handleSummarize (SummarizeEnv.success s) index stP).messages =
      stP.messages.set index { msgP with summary := some s } := by
    simp [Part000.handleSummarize, Part000.summarizeText, Part000.applyError, hP, hPt, hs]
  refine ⟨?_, ?_, ?_, ?_, ?_⟩
  · rw [hmsgs]; exact List.getElem?_set_eq_of_lt _ hlt
  · intro j hj
    rw [hmsgs]; exact List.getElem?_set_ne (Ne.symm hj)
  · simp [AppJsx.handleSummarize, AppJsx.summarizeText, h, ht, hs]
  · rw [hmsgsP]; exact List.getElem?_set_eq_of_lt _ hltP
  · intro j hj
    rw [hmsgsP]; exact List.getElem?_set_ne (Ne.symm hj)

/-- Claim C4, witness: the frame statement instantiated at the sample
states with result "a short summary"; the other-message conjuncts are
instantiated at index 1. -/
theorem C4_witness :
    sampleStA.messages[0]? = some sampleMsgA ∧ sampleMsgA.text ≠ "" ∧
    sampleStP.messages[0]? = some sampleMsgP ∧ sampleMsgP.text ≠ "" ∧
    ("a short summary" : String) ≠ "" ∧
    (AppJsx.handleSummarize (SummarizeEnv.success "a short summary") 0 sampleStA).messages[0]? =
      some { text := sampleMsgA.text, detectedLanguage := sampleMsgA.detectedLanguage,
             summary := "a short summary", translation := sampleMsgA.translation } ∧
    (AppJsx.handleSummarize (SummarizeEnv.success "a short summary") 0 sampleStA).messages[1]? =
      sampleStA.messages[1]? ∧
    (Part000.handleSummarize (SummarizeEnv.success "a short summary") 0 sampleStP).messages[0]? =
      some { text := sampleMsgP.text, language := sampleMsgP.language,
             summary := some "a short summary", translation := sampleMsgP.translation } :=
  ⟨by decide, by decide, by decide, by decide, by decide,
   (C4_summarize_frame sampleStA sampleStP 0 sampleMsgA sampleMsgP "a short summary"
      (by decide) (by decide) (by decide) (by decide) (by decide)).1,
   (C4_summarize_frame sampleStA sampleStP 0 sampleMsgA sampleMsgP "a short summary"
      (by decide) (by decide) (by decide) (by decide) (by decide)).2.1 1 (by decide),
   (C4_summarize_frame sampleStA sampleStP 0 sampleMsgA sampleMsgP "a short summary"
      (by decide) (by decide) (by decide) (by decide) (by decide)).2.2.2.1⟩

/-- Claim C5: two successful translate(i) calls in sequence, with the
target language switched in between, leave `messages[i].translation`
equal to the second result alone - the second overwrites the first, with
no accumulation - in both variants. -/
theorem C5_translate_overwrite (st : AppJsx.AppState) (stP : Part000.AppState)
    (index : Nat) (msg : AppJsx.Message) (msgP : Part000.Message)
    (lang1 lang2 t1 t2 : String)
    (h : st.messages[index]? = some msg)
    (hP : stP.messages[index]? = some msgP) (hPt : msgP.text ≠ "")
    (h1 : t1 ≠ "") (h2 : t2 ≠ "") :
    (AppJsx.handleTranslate (TranslateEnv.success t2) index
      { AppJsx.handleTranslate (TranslateEnv.success t1) index
          { st with selectedLanguage := lang1 } with
        selectedLanguage := lang2 }).messages[index]? =
      some { text := msg.text, detectedLanguage := msg.detectedLanguage,
             summary := msg.summary, translation := t2 } ∧
    (Part000.handleTranslate (TranslateEnv.success t2) index
      { Part000.handleTranslate (TranslateEnv.success t1) index
          { stP with selectedTargetLanguage := lang1 } with
        selectedTargetLanguage := lang2 }).messages[index]? =
      some { text := msgP.text, language := msgP.language,
             summary := msgP.summary, translation := some t2 } := by
  have hlt : index < st.messages.length := (List.getElem?_eq_some.mp h).1
  have hltP : index < stP.messages.length := (List.getElem?_eq_some.mp hP).1
  constructor
  · have hget1 : (st.messages.set index { msg with translation := t1 })[index]? =
        some { msg with translation := t1 } :=
      List.getElem?_set_eq_of_lt _ hlt
    have houter : (AppJsx.handleTranslate (TranslateEnv.success t2) index
        { AppJsx.handleTranslate (TranslateEnv.success t1) index
            { st with selectedLanguage := lang1 } with
          selectedLanguage := lang2 }).messages =
        st.messages.set index { msg with translation := t2 } := by
      simp [AppJsx.handleTranslate, AppJsx.translateText, h, h1, hget1, h2, List.set_set]
    rw [houter]
    exact List.getElem?_set_eq_of_lt _ hlt
  · have hget1P : (stP.messages.set index { msgP with translation := some t1 })[index]? =
        some { msgP with translation := some t1 } :=
      List.getElem?_set_eq_of_lt _ hltP
    have houterP : (Part000.handleTranslate (TranslateEnv.success t2) index
        { Part000.handleTranslate (TranslateEnv.success t1) index
            { stP with selectedTargetLanguage := lang1 } with
          selectedTargetLanguage := lang2 }).messages =
        stP.messages.set index { msgP with translation := some t2 } := by
      simp [Part000.handleTranslate, Part000.translateText, Part000.applyError,
        hP, hPt, h1, hget1P, h2, List.set_set]
    rw [houterP]
    exact List.getElem?_set_eq_of_lt _ hltP

/-- Claim C5, witness: two successful translations ("bonjour" with target
"fr", then "hola" with target "es") on the sample states leave the
translation equal to "hola" alone. -/
theorem C5_witness :
    sampleStA.messages[0]? = some sampleMsgA ∧
    sampleStP.messages[0]? = some sampleMsgP ∧ sampleMsgP.text ≠ "" ∧
    ("bonjour" : String) ≠ "" ∧ ("hola" : String) ≠ "" ∧
    ((AppJsx.handleTranslate (TranslateEnv.success "hola") 0
        { AppJsx.handleTranslate (TranslateEnv.success "bonjour") 0
            { sampleStA with selectedLanguage := "fr" } with
          selectedLanguage := "es" }).messages[0]? =
      some { text := sampleMsgA.text, detectedLanguage := sampleMsgA.detectedLanguage,
             summary := sampleMsgA.summary, translation := "hola" } ∧
     (Part000.handleTranslate (TranslateEnv.success "hola") 0
        { Part000.handleTranslate (TranslateEnv.success "bonjour") 0
            { sampleStP with selectedTargetLanguage := "fr" } with
          selectedTargetLanguage := "es" }).messages[0]? =
      some { text := sampleMsgP.text, language := sampleMsgP.language,
             summary := sampleMsgP.summary, translation := some "hola" }) :=
  ⟨by decide, by decide, by decide, by decide, by decide,
   C5_translate_overwrite sampleStA sampleStP 0 sampleMsgA sampleMsgP "fr" "es" "bonjour" "hola"
     (by decide) (by decide) (by decide) (by decide) (by decide)⟩

/-- Claim C6, counterexample: in the `App.jsx` variant a raising
translation call leaves the prior translation untouched but reports
nothing - the state, error slot included, is entirely unchanged and the
slot stays empty, so no error is surfaced to the user. -/
theorem C6_counterexample :
    AppJsx.handleTranslate TranslateEnv.failure 0 sampleStA = sampleStA ∧
    sampleStA.error = "" := by decide

/-- Claim C6, amended: when the translation capability is absent or the
call raises, the message list (hence any prior translation) is unchanged
in both variants; the `part_000` variant writes an error message to the
error slot, while the `App.jsx` variant leaves the state entirely
unchanged (the error is only logged to the console, not surfaced). -/
theorem C6_translate_error_behavior (st : AppJsx.AppState) (stP : Part000.AppState)
    (index : Nat) (msgP : Part000.Message)
    (hP : stP.messages[index]? = some msgP) (hPt : msgP.text ≠ "") :
    AppJsx.handleTranslate TranslateEnv.unavailable index st = st ∧
    AppJsx.handleTranslate TranslateEnv.failure index st = st ∧
    (Part000.handleTranslate TranslateEnv.unavailable index stP).messages = stP.messages ∧
    (Part000.handleTranslate TranslateEnv.unavailable index stP).error =
      "Feature unavailable: Text translation." ∧
    (Part000.handleTranslate TranslateEnv.failure index stP).messages = stP.messages ∧
    (Part000.handleTranslate TranslateEnv.failure index stP).error =
      "Translation failed. Check if the language pair is supported." := by
  refine ⟨handleTranslate_unavailable_eq index st, handleTranslate_failure_eq index st,
    ?_, ?_, ?_, ?_⟩ <;>
    simp [Part000.handleTranslate, Part000.translateText, Part000.applyError, hP, hPt]

/-- Claim C6, witness: the amended statement instantiated at the sample
states. -/
theorem C6_witness :
    sampleStP.messages[0]? = some sampleMsgP ∧ sampleMsgP.text ≠ "" ∧
    (AppJsx.handleTranslate TranslateEnv.unavailable 0 sampleStA = sampleStA ∧
     AppJsx.handleTranslate TranslateEnv.failure 0 sampleStA = sampleStA ∧
     (Part000.handleTranslate TranslateEnv.unavailable 0 sampleStP).messages = sampleStP.messages ∧
     (Part000.handleTranslate TranslateEnv.unavailable 0 sampleStP).error =
       "Feature unavailable: Text translation." ∧
     (Part000.handleTranslate TranslateEnv.failure 0 sampleStP).messages = sampleStP.messages ∧
     (Part000.handleTranslate TranslateEnv.failure 0 sampleStP).error =
       "Translation failed. Check if the language pair is supported.") :=
  ⟨by decide, by decide,
   C6_translate_error_behavior sampleStA sampleStP 0 sampleMsgP (by decide) (by decide)⟩

/-- Claim C7: for every event sequence, in both variants, the texts of
the final message list are exactly the prior texts followed by the
accepted submissions in order.  Hence messages are only appended, never
deleted or reordered, the order is exactly the submission order, and an
existing message keeps its index and text through every later
operation. -/
theorem C7_submission_order (ops : List AppJsx.Op) (st : AppJsx.AppState)
    (opsP : List Part000.Op) (stP : Part000.AppState) :
    (AppJsx.run ops st).messages.map AppJsx.Message.text =
      st.messages.map AppJsx.Message.text ++ AppJsx.submittedTexts ops st.inputText ∧
    (Part000.run opsP stP).messages.map Part000.Message.text =
      stP.messages.map Part000.Message.text ++ Part000.submittedTexts opsP stP.userInput :=
  ⟨appjsx_run_textMap ops st, part000_run_textMap opsP stP⟩

/-- Claim C8: the Summarize action is offered exactly when the message
text is longer than 150 characters and the detected language is "en", in
both variants. -/
theorem C8_summarize_offered_iff (msg : AppJsx.Message) (msgP : Part000.Message) :
    (AppJsx.showSummarizeButton msg = true ↔
      150 < msg.text.length ∧ msg.detectedLanguage = some "en") ∧
    (Part000.showSummarizeButton msgP = true ↔
      150 < msgP.text.length ∧ msgP.language = "en") := by
  constructor <;> simp [AppJsx.showSummarizeButton, Part000.showSummarizeButton]

/-- Claim C9, counterexample: in the `App.jsx` variant a
capability-unavailable error during summarize is not written to the
user-visible error slot - the state is entirely unchanged and the slot
stays empty - so not every error of the three kinds reaches the slot. -/
theorem C9_counterexample :
    AppJsx.handleSummarize SummarizeEnv.unavailable 0 sampleStA = sampleStA ∧
    sampleStA.error = "" := by decide

/-- Claim C9, amended: in the `part_000` variant all three error kinds
(validation, capability absence, capability failure) are written to the
single error slot, each write overwrites whatever was there, and a
successful submission whose detection writes no error ends with the slot
cleared.  In the `App.jsx` variant only the validation error is written
to the slot; capability absence and capability failure leave the state
(slot included) entirely unchanged. -/
theorem C9_error_slot_behavior (envD envS : DetectEnv)
    (stB stPE stS : Part000.AppState) (stAB stA : AppJsx.AppState)
    (index : Nat) (msgP : Part000.Message)
    (hB : jsTrim stB.userInput = "")
    (hP : stPE.messages[index]? = some msgP) (hPt : msgP.text ≠ "")
    (hS : jsTrim stS.userInput ≠ "")
    (hD : (Part000.detectLanguage envS stS.userInput).2 = none)
    (hAB : jsTrim stAB.inputText = "") :
    (Part000.handleSubmit envD stB).error = "Input field is empty. Please enter some text." ∧
    (Part000.handleSubmit envD stB).messages = stB.messages ∧
    (Part000.handleSummarize SummarizeEnv.unavailable index stPE).error =
      "Feature unavailable: Text summarization." ∧
    (Part000.handleTranslate TranslateEnv.failure index stPE).error =
      "Translation failed. Check if the language pair is supported." ∧
    (Part000.handleSubmit envS stS).error = "" ∧
    (AppJsx.handleSubmit envD stAB).error = "Please enter text before submitting." ∧
    AppJsx.handleSummarize SummarizeEnv.unavailable index stA = stA ∧
    AppJsx.handleTranslate TranslateEnv.failure index stA = stA := by
  refine ⟨?_, ?_, ?_, ?_, ?_, ?_, handleSummarize_unavailable_eq index stA,
    handleTranslate_failure_eq index stA⟩
  · simp [Part000.handleSubmit, hB]
  · simp [Part000.handleSubmit, hB]
  · simp [Part000.handleSummarize, Part000.summarizeText, Part000.applyError, hP, hPt]
  · simp [Part000.handleTranslate, Part000.translateText, Part000.applyError, hP, hPt]
  · simp [Part000.handleSubmit, hS, hD, Part000.applyError]
  · simp [AppJsx.handleSubmit, hAB]

/-- Claim C9, witness: the amended statement instantiated at the sample
states, with a detection environment that returns an "en" result (and so
writes no error) for the successful submission. -/
theorem C9_witness :
    jsTrim sampleBlankP.userInput = "" ∧
    sampleStP.messages[0]? = some sampleMsgP ∧ sampleMsgP.text ≠ "" ∧
    jsTrim sampleSubmitP.userInput ≠ "" ∧
    (Part000.detectLanguage (DetectEnv.results [{ detectedLanguage := "en", confidence := 9 }])
        sampleSubmitP.userInput).2 = none ∧
    jsTrim sampleBlankA.inputText = "" ∧
    ((Part000.handleSubmit DetectEnv.unavailable sampleBlankP).error =
       "Input field is empty. Please enter some text." ∧
     (Part000.handleSubmit DetectEnv.unavailable sampleBlankP).messages = sampleBlankP.messages ∧
     (Part000.handleSummarize SummarizeEnv.unavailable 0 sampleStP).error =
       "Feature unavailable: Text summarization." ∧
     (Part000.handleTranslate TranslateEnv.failure 0 sampleStP).error =
       "Translation failed. Check if the language pair is supported." ∧
     (Part000.handleSubmit (DetectEnv.results [{ detectedLanguage := "en", confidence := 9 }])
        sampleSubmitP).error = "" ∧
     (AppJsx.handleSubmit DetectEnv.unavailable sampleBlankA).error =
       "Please enter text before submitting." ∧
     AppJsx.handleSummarize SummarizeEnv.unavailable 0 sampleStA = sampleStA ∧
     AppJsx.handleTranslate TranslateEnv.failure 0 sampleStA = sampleStA) :=
  ⟨by decide, by decide, by decide, by decide, by decide, by decide,
   C9_error_slot_behavior DetectEnv.unavailable
     (DetectEnv.results [{ detectedLanguage := "en", confidence := 9 }])
     sampleBlankP sampleStP sampleSubmitP sampleBlankA sampleStA 0 sampleMsgP
     (by decide) (by decide) (by decide) (by decide) (by decide) (by decide)⟩

/-- Claim C10, counterexample: a summarization call that succeeds with the
empty string is not treated as "do not update": both variants store a
placeholder failure string into the message's summary field. -/
theorem C10_counterexample :
    (AppJsx.handleSummarize (SummarizeEnv.success "") 0 sampleStA).messages.map
        AppJsx.Message.summary = ["Summarization failed"] ∧
    sampleStA.messages.map AppJsx.Message.summary = [""] ∧
    (Part000.handleSummarize (SummarizeEnv.success "") 0 sampleStP).messages.map
        Part000.Message.summary = [some "Failed to generate summary."] ∧
    sampleStP.messages.map Part000.Message.summary = [none] := by decide

/-- Claim C10, amended: a translation call returning the empty string is
treated as a failure (nothing is stored, the state is unchanged) in both
variants; a summarization call returning the empty string instead stores
a placeholder failure string ("Summarization failed" in `App.jsx`,
"Failed to generate summary." in `part_000`) into the summary field. -/
theorem C10_empty_result_behavior (st : AppJsx.AppState) (stP : Part000.AppState)
    (index : Nat) (msg : AppJsx.Message) (msgP : Part000.Message)
    (h : st.messages[index]? = some msg) (ht : msg.text ≠ "")
    (hP : stP.messages[index]? = some msgP) (hPt : msgP.text ≠ "") :
    AppJsx.handleTranslate (TranslateEnv.success "") index st = st ∧
    Part000.handleTranslate (TranslateEnv.success "") index stP = stP ∧
    (AppJsx.handleSummarize (SummarizeEnv.success "") index st).messages =
      st.messages.set index { msg with summary := "Summarization failed" } ∧
    (Part000.handleSummarize (SummarizeEnv.success "") index stP).messages =
      stP.messages.set index { msgP with summary := some "Failed to generate summary." } := by
  refine ⟨handleTranslate_empty_eq index st, part000_handleTranslate_empty_eq index stP, ?_, ?_⟩
  · simp [AppJsx.handleSummarize, AppJsx.summarizeText, h, ht]
  · simp [Part000.handleSummarize, Part000.summarizeText, Part000.applyError, hP, hPt]

/-- Claim C10, witness: the amended statement instantiated at the sample
one-message states. -/
theorem C10_witness :
    sampleStA.messages[0]? = some sampleMsgA ∧ sampleMsgA.text ≠ "" ∧
    sampleStP.messages[0]? = some sampleMsgP ∧ sampleMsgP.text ≠ "" ∧
    (AppJsx.handleTranslate (TranslateEnv.success "") 0 sampleStA = sampleStA ∧
     Part000.handleTranslate (TranslateEnv.success "") 0 sampleStP = sampleStP ∧
     (AppJsx.handleSummarize (SummarizeEnv.success "") 0 sampleStA).messages =
       sampleStA.messages.set 0 { sampleMsgA with summary := "Summarization failed" } ∧
     (Part000.handleSummarize (SummarizeEnv.success "") 0 sampleStP).messages =
       sampleStP.messages.set 0 { sampleMsgP with summary := some "Failed to generate summary." }) :=
  ⟨by decide, by decide, by decide, by decide,
   C10_empty_result_behavior sampleStA sampleStP 0 sampleMsgA sampleMsgP
     (by decide) (by decide) (by decide) (by decide)⟩
